import Mathlib

/-!
Verification of the per-session email cache and IMAP command layer of the
open-email-agent repository (src/lib/email_tools.py and
src/web_app/backend/api_server.py), as a shallow embedding in Lean 4.

Conventions of the embedding:
* Python email objects become the `Email` structure (only the fields the
  cache layer reads).
* The per-session cache `_emails_caches : dict[str, list]` becomes an
  association list `List (String × Cache)` with `Cache = List (Option Email)`
  (a `none` entry is a tombstone, exactly as in the Python code).
* Interaction with the IMAP server (`mailbox.delete`, `mailbox.move`, ...)
  is modelled by a boolean parameter `serverOk`: `true` means the protocol
  call returned normally, `false` means it raised, in which case the Python
  `except` branch runs. `serverErr` is the text of the exception.
* Python `int(s)` on strings is modelled by `String.toInt?`, `str.strip()`
  by trimming the whitespace characters Python strips.
* A Python function that can raise an uncaught exception is modelled with
  the `PyResult` type: `.returned v` for a normal return and `.raised msg`
  for an escaping exception.
-/

namespace EmailAgent

/-- An email object as fetched by imap_tools, restricted to the fields the
cache layer of `email_tools.py` reads.  `uid` is a STRING: imap_tools'
`MailMessage.uid` is a string, as this repository itself records
("keep as string for imap_tools", api_server.py line 922, and
`str(email.uid)` at line 1282) — the comment inside `delete_email`
claiming it is an integer is wrong. -/
structure Email where
  uid : String
  subject : String
  from_ : String
  date_str : String
  flags : List String
deriving Repr, DecidableEq

/-- A per-session cache entry list: `none` is a tombstone left by
`delete_email` / `move_email`, exactly as in `_emails_caches`. -/
abbrev Cache := List (Option Email)

/-! ### Python string primitives

The Python string operations the embedded code uses, implemented over the
character list of the string so that they evaluate by kernel reduction.
All inputs involved are ASCII, where these agree with Python. -/

/-- The whitespace characters Python's `str.strip()` / `int()` / `\s`
handle (the ASCII ones). -/
def isPySpace (c : Char) : Bool :=
  c = ' ' || c = '\t' || c = '\n' || c = '\r' || c = '\x0b' || c = '\x0c'

/-- Python `str.strip()`. -/
def stripChars (l : List Char) : List Char :=
  ((l.dropWhile isPySpace).reverse.dropWhile isPySpace).reverse

/-- Value of a nonempty all-digit character run. -/
def digitsToNat? (l : List Char) : Option Nat :=
  if l.isEmpty || !(l.all Char.isDigit) then none
  else some (l.foldl (fun n c => 10 * n + (c.toNat - 48)) 0)

/-- Python `int(s)` on a string: surrounding whitespace and an optional
sign are accepted, then a nonempty digit run. -/
def pyToInt (s : String) : Option Int :=
  match stripChars s.data with
  | '-' :: rest => (digitsToNat? rest).map (fun n => -(n : Int))
  | '+' :: rest => (digitsToNat? rest).map (fun n => (n : Int))
  | t => (digitsToNat? t).map (fun n => (n : Int))

/-- Python `s.split(sep)` for a single separator character (used for the
`-` of the date format). -/
def splitOnCharAux (sep : Char) : List Char → List Char → List (List Char)
  | [], acc => [acc.reverse]
  | c :: rest, acc =>
    if c = sep then acc.reverse :: splitOnCharAux sep rest []
    else splitOnCharAux sep rest (c :: acc)

def splitOnChar (sep : Char) (l : List Char) : List (List Char) :=
  splitOnCharAux sep l []

/-- Python `str.lower()` (ASCII). -/
def lowerStr (s : String) : String :=
  String.mk (s.data.map Char.toLower)

/-- Python `x in xs` for a list of strings. -/
def containsStr (l : List String) (s : String) : Bool :=
  l.any (fun x => x = s)

/-- 1-based positional lookup in a session cache, as inlined in
`delete_email` (`email_tools.py` lines 412-419): an index outside
`1..len(cache)` or a tombstoned slot yields `none`. -/
def resolveIndex : Cache → Nat → Option Email
  | [], _ => none
  | _ :: _, 0 => none
  | c :: _, 1 => c
  | _ :: rest, k+2 => resolveIndex rest (k+1)

/-- Python `==` between the string uid of a MailMessage and the int
`email_uid_int` computed by `int(email_uid)`: a cross-type comparison in
Python, which is `False` (without raising) for every pair of values. -/
def pyEqStrInt (_s : String) (_n : Int) : Bool := false

/-- The uid scan inlined in `delete_email` / `move_email`
(`next((idx for idx, email in enumerate(cache, 1)
       if email is not None and email.uid == email_uid_int), None)`,
email_tools.py lines 428/494): first 1-based index (and entry) whose
non-tombstoned uid compares equal to the converted integer.  Because
`email.uid` is a string and `email_uid_int` an int, the comparison is
the always-false `pyEqStrInt`. -/
def resolveUid : Cache → Int → Option (Nat × Email)
  | [], _ => none
  | none :: rest, uid =>
      (resolveUid rest uid).map (fun p => (p.1 + 1, p.2))
  | some e :: rest, uid =>
      if pyEqStrInt e.uid uid then some (1, e)
      else (resolveUid rest uid).map (fun p => (p.1 + 1, p.2))

/-- The result of one cache-mutating tool call: the new session cache and
the string returned to the agent runtime. -/
structure ToolStep where
  cache : Cache
  msg : String
deriving Repr, DecidableEq

/-- The bounds check
`email_index is not None and (email_index < 1 or email_index > len(cache))`
shared by `delete_email` / `move_email` / `flag_email`. -/
def index_out_of_range (email_index : Option Int) (len : Nat) : Bool :=
  match email_index with
  | some k => decide (k < 1) || decide ((len : Int) < k)
  | none => false

/-- `f"Error: Invalid email index {email_index}. Valid range: 1-{len(cache)}."` -/
def invalid_index_msg (email_index : Option Int) (len : Nat) : String :=
  "Error: Invalid email index "
    ++ (match email_index with | some k => toString k | none => "None")
    ++ ". Valid range: 1-" ++ toString len ++ "."

/-- `delete_email` (`email_tools.py` lines 395-440).  `connected` models
`mailbox` being non-`None`; `serverOk` models whether `mailbox.delete`
returns normally, `serverErr` the text of the exception it raises
otherwise.  All exceptions inside the `try` are caught, so the function
always returns a `ToolStep`. -/
def delete_email (connected serverOk : Bool) (serverErr : String)
    (cache : Cache) (email_index : Option Int) (email_uid : Option String) :
    ToolStep :=
  if connected = false then ⟨cache, "Error: Mailbox not connected."⟩
  else if index_out_of_range email_index cache.length then
    ⟨cache, invalid_index_msg email_index cache.length⟩
  else
    match email_index with
    | some k =>
      match resolveIndex cache k.toNat with
      | none => ⟨cache, "Error: Email #" ++ toString k ++ " has already been deleted. "⟩
      | some _ =>
        if serverOk then
          ⟨cache.set (k.toNat - 1) none, "Email #" ++ toString k ++ " deleted successfully!"⟩
        else
          ⟨cache, "Failed to delete email #" ++ toString k ++ ": " ++ serverErr⟩
    | none =>
      match email_uid with
      | none => ⟨cache, "Error: Either email_index or email_uid must be provided."⟩
      | some u =>
        match pyToInt u with
        | none => ⟨cache, "Error: Invalid email_uid \x27" ++ u ++ "\x27. Must be a number."⟩
        | some uid =>
          match resolveUid cache uid with
          | none => ⟨cache, "Error: Email with UID " ++ u
              ++ " not found. The email may have already been deleted."⟩
          | some (k, _) =>
            if serverOk then
              ⟨cache.set (k - 1) none, "Email #" ++ toString (k : Int) ++ " deleted successfully!"⟩
            else
              ⟨cache, "Failed to delete email #" ++ toString (k : Int) ++ ": " ++ serverErr⟩

/-- `move_email` (`email_tools.py` lines 443-507).  `allFolders` is the
result of `mailbox.folder.list()`; destination aliasing retries with the
`[Gmail]/` prefix exactly as in the source.  `serverOk` models whether
`mailbox.move` returns normally. -/
def move_email (connected serverOk : Bool) (serverErr : String)
    (allFolders : List String) (cache : Cache)
    (email_index : Option Int) (email_uid : Option String)
    (destination_folder : Option String) : ToolStep :=
  if connected = false then ⟨cache, "Error: Mailbox not connected."⟩
  else if index_out_of_range email_index cache.length then
    ⟨cache, invalid_index_msg email_index cache.length⟩
  else if (match destination_folder with | none => true | some d => d.data.isEmpty) then
    ⟨cache, "Error: destination_folder must be provided."⟩
  else
    let dest := destination_folder.getD ""
    let target :=
      if containsStr allFolders dest then some dest
      else if containsStr allFolders ("[Gmail]/" ++ dest) then some ("[Gmail]/" ++ dest)
      else none
    match target with
    | none => ⟨cache, "Error: Folder \x27" ++ dest ++ "\x27 not found. Available folders: "
        ++ String.intercalate ", " allFolders⟩
    | some tf =>
      match email_index with
      | some k =>
        match resolveIndex cache k.toNat with
        | none => ⟨cache, "Error: Email #" ++ toString k ++ " has already been deleted."⟩
        | some _ =>
          if serverOk then
            ⟨cache.set (k.toNat - 1) none,
              "Email #" ++ toString k ++ " moved successfully to \x27" ++ tf ++ "\x27!"⟩
          else
            ⟨cache, "Failed to move email #" ++ toString k ++ ": " ++ serverErr⟩
      | none =>
        match email_uid with
        | none => ⟨cache, "Error: Either email_index or email_uid must be provided."⟩
        | some u =>
          match pyToInt u with
          | none => ⟨cache, "Error: Invalid email_uid \x27" ++ u ++ "\x27. Must be a number."⟩
          | some uid =>
            match resolveUid cache uid with
            | none => ⟨cache, "Error: Email with UID " ++ u ++ " not found in cache."⟩
            | some (k, _) =>
              if serverOk then
                ⟨cache.set (k - 1) none,
                  "Email #" ++ toString (k : Int) ++ " moved successfully to \x27" ++ tf ++ "\x27!"⟩
              else
                ⟨cache, "Failed to move email #" ++ toString (k : Int) ++ ": " ++ serverErr⟩

/-! ### Basic lemmas about `resolveIndex` / `resolveUid` -/

theorem resolveIndex_pos {cache : Cache} {k : Nat} {e : Email}
    (h : resolveIndex cache k = some e) : 1 ≤ k := by
  cases cache with
  | nil => simp [resolveIndex] at h
  | cons c rest =>
    cases k with
    | zero => simp [resolveIndex] at h
    | succ n => omega

theorem resolveIndex_le_length {cache : Cache} {k : Nat} {e : Email}
    (h : resolveIndex cache k = some e) : k ≤ cache.length := by
  induction cache generalizing k with
  | nil => simp [resolveIndex] at h
  | cons c rest ih =>
    match k with
    | 0 => simp [resolveIndex] at h
    | 1 => simp [List.length_cons]
    | Nat.succ (Nat.succ n) =>
      have := ih h
      simp [List.length_cons]
      omega

theorem resolveIndex_mem {cache : Cache} {k : Nat} {e : Email}
    (h : resolveIndex cache k = some e) : e ∈ cache.filterMap (fun x => x) := by
  induction cache generalizing k with
  | nil => simp [resolveIndex] at h
  | cons c rest ih =>
    match k with
    | 0 => simp [resolveIndex] at h
    | 1 =>
      simp [resolveIndex] at h
      subst h
      simp
    | Nat.succ (Nat.succ n) =>
      have := ih h
      cases c with
      | none => simpa using this
      | some e' => simp [this]

/-- Tombstoning slot `k` (1-based) does not change what any other index
resolves to. -/
theorem resolveIndex_set_none_ne (cache : Cache) (k j : Nat)
    (hk : 1 ≤ k) (hjk : j ≠ k) :
    resolveIndex (cache.set (k-1) none) j = resolveIndex cache j := by
  induction cache generalizing k j with
  | nil => simp
  | cons c rest ih =>
    match k, hk with
    | 1, _ =>
      match j with
      | 0 => simp [resolveIndex]
      | 1 => omega
      | Nat.succ (Nat.succ n) => simp [resolveIndex]
    | Nat.succ (Nat.succ m), _ =>
      have hset : (c :: rest).set (m + 2 - 1) none = c :: rest.set (m + 1 - 1) none := by
        simp [List.set]
      rw [hset]
      match j with
      | 0 => simp [resolveIndex]
      | 1 => simp [resolveIndex]
      | Nat.succ (Nat.succ n) =>
        simp only [resolveIndex]
        exact ih (m+1) (n+1) (by omega) (by omega)

/-- The str-vs-int uid comparison never matches, so the uid scan comes up
empty on every cache and every converted uid. -/
theorem resolveUid_eq_none (cache : Cache) (uid : Int) :
    resolveUid cache uid = none := by
  induction cache with
  | nil => rfl
  | cons c rest ih => cases c <;> simp [resolveUid, pyEqStrInt, ih]

theorem index_out_of_range_false {k len : Nat} (hk : 1 ≤ k) (hlen : k ≤ len) :
    index_out_of_range (some (k : Int)) len = false := by
  simp [index_out_of_range]
  omega

/-- Reduction of `delete_email` on a resolvable positional index: the whole
call boils down to the server delete followed (on success only) by the
in-place tombstone. -/
theorem delete_email_by_index_eq (serverOk : Bool) (serverErr : String)
    {cache : Cache} {k : Nat} {e : Email}
    (h : resolveIndex cache k = some e) :
    delete_email true serverOk serverErr cache (some (k : Int)) none =
      if serverOk then
        ⟨cache.set (k - 1) none, "Email #" ++ toString (k : Int) ++ " deleted successfully!"⟩
      else
        ⟨cache, "Failed to delete email #" ++ toString (k : Int) ++ ": " ++ serverErr⟩ := by
  have h1 : 1 ≤ k := resolveIndex_pos h
  have h2 : k ≤ cache.length := resolveIndex_le_length h
  have hrange := index_out_of_range_false h1 h2
  simp only [delete_email, hrange, Bool.false_eq_true, Bool.true_eq_false, if_false,
    Int.toNat_natCast, h]

/-- Reduction of `delete_email` on a well-formed uid argument: the scan
never matches, so the call always reports the email as not found and
leaves the cache unchanged. -/
theorem delete_email_by_uid_not_found (serverOk : Bool) (serverErr : String)
    {cache : Cache} {u : String} {uid : Int}
    (hu : pyToInt u = some uid) :
    delete_email true serverOk serverErr cache none (some u) =
      ⟨cache, "Error: Email with UID " ++ u
        ++ " not found. The email may have already been deleted."⟩ := by
  simp only [delete_email, index_out_of_range, Bool.true_eq_false, Bool.false_eq_true,
    if_false, hu, resolveUid_eq_none]

/-- Reduction of `move_email` on a resolvable positional index and an
existing destination folder. -/
theorem move_email_by_index_eq (serverOk : Bool) (serverErr : String)
    {allFolders : List String} {dest : String} {cache : Cache} {k : Nat} {e : Email}
    (hdest : containsStr allFolders dest = true) (hne : dest.data.isEmpty = false)
    (h : resolveIndex cache k = some e) :
    move_email true serverOk serverErr allFolders cache (some (k : Int)) none (some dest) =
      if serverOk then
        ⟨cache.set (k - 1) none,
          "Email #" ++ toString (k : Int) ++ " moved successfully to \x27" ++ dest ++ "\x27!"⟩
      else
        ⟨cache, "Failed to move email #" ++ toString (k : Int) ++ ": " ++ serverErr⟩ := by
  have h1 : 1 ≤ k := resolveIndex_pos h
  have h2 : k ≤ cache.length := resolveIndex_le_length h
  have hrange := index_out_of_range_false h1 h2
  simp only [move_email, hrange, Bool.false_eq_true, Bool.true_eq_false, if_false, hne,
    hdest, if_true, Int.toNat_natCast, h, Option.getD_some]

/-! ### Cache persistence (`_emails_caches`, `save_emails_cache_to_disk`)

The module-level state of `email_tools.py`: the in-memory per-session
caches and the JSON snapshot written by `save_emails_cache_to_disk`.
Python `dict` update keeps the position of an existing key and appends a
new one, which `setAssoc` reproduces. -/

/-- One serialized cache entry as written by `_serialize_email_cache`
(`email_tools.py` lines 65-80): uid, subject, from, date and flags only,
with `None` entries serialized as `null`. -/
structure SEmail where
  uid : String
  subject : String
  from_ : String
  date : String
  flags : List String
deriving Repr, DecidableEq

/-- `_serialize_email_cache`: metadata projection, tombstones kept as
`null` markers. -/
def serialize_email_cache (cache : Cache) : List (Option SEmail) :=
  cache.map (Option.map (fun e => ⟨e.uid, e.subject, e.from_, e.date_str, e.flags⟩))

def setAssoc {α : Type} : List (String × α) → String → α → List (String × α)
  | [], k, v => [(k, v)]
  | (k', v') :: rest, k, v =>
      if k' = k then (k, v) :: rest else (k', v') :: setAssoc rest k v

def lookupAssoc {α : Type} : List (String × α) → String → Option α
  | [], _ => none
  | (k', v) :: rest, k => if k' = k then some v else lookupAssoc rest k

/-- The module-level mutable state: `_emails_caches` and the contents of
`.emails_cache.json`. -/
structure AppState where
  caches : List (String × Cache)
  disk : List (String × List (Option SEmail))
deriving Repr, DecidableEq

/-- `save_emails_cache_to_disk` (lines 109-122): serializes every
session's cache and rewrites the snapshot file. -/
def save_emails_cache_to_disk (st : AppState) : AppState :=
  { st with disk := st.caches.map (fun p => (p.1, serialize_email_cache p.2)) }

/-- `set_emails_cache` (lines 132-136): replace one session's list, then
auto-save the snapshot. -/
def set_emails_cache (st : AppState) (session : String) (emails : Cache) : AppState :=
  save_emails_cache_to_disk { st with caches := setAssoc st.caches session emails }

/-- The cache effect of `read_emails` (lines 281-287): the session's cache
is first replaced by `[]` via `set_emails_cache` (which persists the
snapshot at that moment), then each fetched email is appended to the same
in-memory list — `cache.append(email)` mutates `_emails_caches[session]`
in place and triggers no further disk write. -/
def read_emails_cache_update (st : AppState) (session : String)
    (fetched : List Email) : AppState :=
  let st1 := set_emails_cache st session []
  { st1 with caches := setAssoc st1.caches session (fetched.map some) }

/-- A Python call that either returns a value or lets an exception escape
to the caller. -/
inductive PyResult (α : Type) where
  | returned (v : α)
  | raised (msg : String)
deriving Repr, DecidableEq

/-- Validity of a `'%Y-%m-%d'` date string as checked by
`datetime.strptime` in `read_emails`: exactly four year digits, one or two
month/day digits, month 1-12 and a day valid for that month. -/
def daysInMonth (y m : Nat) : Nat :=
  if m = 2 then
    if (y % 4 = 0 && y % 100 != 0) || y % 400 = 0 then 29 else 28
  else if m = 4 || m = 6 || m = 9 || m = 11 then 30
  else 31

def parseDate (s : String) : Option (Nat × Nat × Nat) :=
  match splitOnChar '-' s.data with
  | [ys, ms, ds] =>
    match digitsToNat? ys, digitsToNat? ms, digitsToNat? ds with
    | some y, some m, some d =>
      if ys.length = 4 && (ms.length = 1 || ms.length = 2)
          && (ds.length = 1 || ds.length = 2)
          && 1 ≤ m && m ≤ 12 && 1 ≤ d && d ≤ daysInMonth y m
      then some (y, m, d) else none
    | _, _, _ => none
  | _ => none

/-- `f"Invalid start_date format: {start_date}. Expected format: YYYY-MM-DD"` -/
def date_error (which : String) (s : String) : String :=
  "Invalid " ++ which ++ " format: " ++ s ++ ". Expected format: YYYY-MM-DD"

/-- Folder-name resolution of `read_emails` (lines 237-240): default to
the first listed folder, else retry an unknown name with the `[Gmail]/`
prefix, else leave the name unchanged. -/
def resolve_folder_name (allFolders : List String) (folder_name : Option String) : String :=
  match folder_name with
  | none => allFolders.headD ""
  | some fn =>
    if containsStr allFolders fn then fn
    else if containsStr allFolders ("[Gmail]/" ++ fn) then "[Gmail]/" ++ fn
    else fn

/-- `read_emails` (lines 215-349), modelled up to its cache effect.
`connected` is `mailbox is not None` (the function dereferences `mailbox`
with no guard); `allFolders` the server's folder names; `fetched` the
ordered result of the `mailbox.fetch` call.  `mailbox.folder.set`
(line 244) runs before any date validation and raises
`MailboxFolderSelectError` when the resolved name is not an existing
folder.  The two `raise ValueError` statements for malformed dates
(lines 262-274) escape the function: there is no `try`/`except` around
them.  The human-readable summary string built from `fetched` is not
modelled; the returned value is the updated module state. -/
def read_emails_model (connected : Bool) (allFolders : List String)
    (folder_name : Option String)
    (start_date end_date : Option String)
    (fetched : List Email) (st : AppState) (session : String) :
    PyResult AppState :=
  if connected = false then
    .raised "AttributeError: \x27NoneType\x27 object has no attribute \x27folder\x27"
  else if folder_name.isNone && allFolders.isEmpty then
    .raised "IndexError: list index out of range"
  else if containsStr allFolders (resolve_folder_name allFolders folder_name) = false then
    .raised ("MailboxFolderSelectError: folder \x27"
      ++ resolve_folder_name allFolders folder_name ++ "\x27 does not exist")
  else
    match start_date with
    | some sd =>
      if (parseDate sd).isNone then .raised (date_error "start_date" sd)
      else
        match end_date with
        | some ed =>
          if (parseDate ed).isNone then .raised (date_error "end_date" ed)
          else .returned (read_emails_cache_update st session fetched)
        | none => .returned (read_emails_cache_update st session fetched)
    | none =>
      match end_date with
      | some ed =>
        if (parseDate ed).isNone then .raised (date_error "end_date" ed)
        else .returned (read_emails_cache_update st session fetched)
      | none => .returned (read_emails_cache_update st session fetched)

/-! ### Lemmas about the association-list state -/

theorem lookupAssoc_setAssoc_self {α : Type} (l : List (String × α)) (k : String) (v : α) :
    lookupAssoc (setAssoc l k v) k = some v := by
  induction l with
  | nil => simp [setAssoc, lookupAssoc]
  | cons p rest ih =>
    by_cases h : p.1 = k
    · simp [setAssoc, lookupAssoc, h]
    · simp [setAssoc, lookupAssoc, h, ih]

theorem lookupAssoc_setAssoc_ne {α : Type} (l : List (String × α)) (k k' : String) (v : α)
    (h : k ≠ k') :
    lookupAssoc (setAssoc l k v) k' = lookupAssoc l k' := by
  induction l with
  | nil => simp [setAssoc, lookupAssoc, h]
  | cons p rest ih =>
    by_cases hp : p.1 = k
    · simp [setAssoc, lookupAssoc, hp, h]
    · simp [setAssoc, lookupAssoc, hp, ih]

/-- Whenever `read_emails` returns (does not raise), the session's
in-memory cache is exactly the fetched list. -/
theorem read_emails_returns_replaced {connected : Bool} {allFolders : List String}
    {folder_name start_date end_date : Option String}
    {fetched : List Email} {st st' : AppState} {session : String}
    (h : read_emails_model connected allFolders folder_name start_date end_date
          fetched st session = .returned st') :
    lookupAssoc st'.caches session = some (fetched.map some) := by
  have hst' : st' = read_emails_cache_update st session fetched := by
    unfold read_emails_model at h
    repeat' split at h
    all_goals simpa using h.symm
  subst hst'
  simp [read_emails_cache_update, set_emails_cache, save_emails_cache_to_disk,
    lookupAssoc_setAssoc_self]

theorem lookupAssoc_map {α β : Type} (f : α → β) (l : List (String × α)) (k : String) :
    lookupAssoc (l.map (fun p => (p.1, f p.2))) k = (lookupAssoc l k).map f := by
  induction l with
  | nil => simp [lookupAssoc]
  | cons p rest ih =>
    by_cases h : p.1 = k
    · simp [lookupAssoc, h]
    · simp [lookupAssoc, h, ih]

/-- The disk snapshot for a session, right after `read_emails` returned,
is the serialization of the empty list: the only disk write happened while
the session's cache was still `[]`. -/
theorem disk_after_read_emails (st : AppState) (session : String) (fetched : List Email) :
    lookupAssoc (read_emails_cache_update st session fetched).disk session =
      some (serialize_email_cache []) := by
  simp [read_emails_cache_update, set_emails_cache, save_emails_cache_to_disk,
    lookupAssoc_map, lookupAssoc_setAssoc_self]

/-- The in-memory cache right after `read_emails`, by contrast, holds the
fetched list. -/
theorem memory_after_read_emails (st : AppState) (session : String) (fetched : List Email) :
    lookupAssoc (read_emails_cache_update st session fetched).caches session =
      some (fetched.map some) := by
  simp [read_emails_cache_update, set_emails_cache, save_emails_cache_to_disk,
    lookupAssoc_setAssoc_self]

/-- `set_emails_cache` itself does persist the metadata of the list it is
given. -/
theorem disk_after_set_emails_cache (st : AppState) (session : String) (emails : Cache) :
    lookupAssoc (set_emails_cache st session emails).disk session =
      some (serialize_email_cache emails) := by
  simp [set_emails_cache, save_emails_cache_to_disk, lookupAssoc_map,
    lookupAssoc_setAssoc_self]

/-- The fetched metadata reaches the disk only when a later cache change
(for any session) triggers another full save. -/
theorem disk_after_later_save (st : AppState) (session other : String)
    (fetched : List Email) (v : Cache) (h : other ≠ session) :
    lookupAssoc (set_emails_cache (read_emails_cache_update st session fetched)
        other v).disk session =
      some (serialize_email_cache (fetched.map some)) := by
  simp [read_emails_cache_update, set_emails_cache, save_emails_cache_to_disk,
    lookupAssoc_map, lookupAssoc_setAssoc_ne _ _ _ _ h, lookupAssoc_setAssoc_self]

/-! ### Address book (`_modify_address_book_impl`, `search_address_book`)

The JSON store is an association list keyed by string id.  The `emails` /
`groups` fields can be `null` (Python `None`) for entries created without
them, as `add_people` stores the arguments unchanged.  The `assert`
statements of the source are modelled as `.raised` outcomes: a failing
`assert` raises `AssertionError`, which no caller catches.  The
string-to-list preprocessing of the `emails` / `groups` arguments
(`json.loads` falling back to a comma split, lines 719-728, which never
raises) is taken as already done: the model receives the resulting lists. -/

structure ABEntry where
  id : String
  name : String
  emails : Option (List String)
  groups : Option (List String)
  created_time : String
  update_time : String
deriving Repr, DecidableEq

abbrev AddressBook := List (String × ABEntry)

/-- Python truthiness of an optional string argument (`assert name`). -/
def truthyS : Option String → Bool
  | none => false
  | some s => !s.isEmpty

/-- Python truthiness of an optional list argument (`assert emails`). -/
def truthyL : Option (List String) → Bool
  | none => false
  | some l => !l.isEmpty

/-- Python list repr used by the f-strings (`f"Emails {emails} ..."`). -/
def pyListRepr (l : List String) : String :=
  "[" ++ String.intercalate ", " (l.map (fun s => "\x27" ++ s ++ "\x27")) ++ "]"

/-- `max(int(k) for k in address_book_data.keys()) + 1` raises on an empty
book (`max()` of an empty sequence) and on a non-numeric key. -/
def maxIntKey (book : AddressBook) : PyResult Int :=
  match book with
  | [] => .raised "max() arg is an empty sequence"
  | b :: bs =>
    let opts := ((b :: bs).map (fun p => p.1.toInt?))
    if opts.all Option.isSome then
      .returned ((opts.filterMap (fun x => x)).foldl max ((b.1.toInt?).getD 0))
    else
      .raised "invalid literal for int() with base 10"

/-- Append the members of `new` missing from `cur`, preserving order
(the `for x in xs: if x not in stored: stored.append(x)` loops). -/
def appendMissing (cur new : List String) : List String :=
  new.foldl (fun acc e => if acc.contains e then acc else acc ++ [e]) cur

/-- Remove the members of `toRemove` present in `cur` (the
`for x in xs: if x in stored: stored.remove(x)` loops; `list.remove`
deletes the first occurrence). -/
def removeFirst : List String → String → List String
  | [], _ => []
  | x :: rest, e => if x = e then rest else x :: removeFirst rest e

def removePresent (cur toRemove : List String) : List String :=
  toRemove.foldl (fun acc e => if acc.contains e then removeFirst acc e else acc) cur

/-- `_modify_address_book_impl` (`email_tools.py` lines 697-805).  `now`
is `get_current_time_str()`.  The final full-file rewrite is modelled as
succeeding; its own failure path returns an error string rather than
raising. -/
def modify_address_book_model (book : AddressBook) (operation : String)
    (id name : Option String) (emails groups : Option (List String))
    (now : String) : PyResult (AddressBook × String) :=
  if operation = "add_people" then
    if truthyS name = false then .raised "Name is required for adding a person."
    else
      let nm := name.getD ""
      if (book.map (fun p => p.2.name)).contains nm then
        .returned (book, "Error: Person with name " ++ nm ++ " already exists.")
      else
        match maxIntKey book with
        | .raised m => .raised m
        | .returned mx =>
          let newId := toString (mx + 1)
          .returned (setAssoc book newId ⟨newId, nm, emails, groups, now, now⟩,
            "Person " ++ nm ++ " added successfully with ID " ++ toString (mx + 1) ++ ".")
  else if operation = "delete_people" then
    if truthyS id = false then .raised "ID is required for deleting a person."
    else
      let i := id.getD ""
      if (lookupAssoc book i).isNone then
        .raised ("Error: Person with ID " ++ i ++ " not found.")
      else
        .returned (book.filter (fun p => p.1 != i),
          "Person with ID " ++ i ++ " deleted successfully.")
  else if operation = "add_emails" then
    if truthyS id = false then .raised "ID is required for adding emails."
    else if truthyL emails = false then .raised "Emails are required for adding emails."
    else
      let i := id.getD ""
      match lookupAssoc book i with
      | none => .raised ("Error: Person with ID " ++ i ++ " not found.")
      | some entry =>
        match entry.emails with
        | none => .raised "TypeError: argument of type \x27NoneType\x27 is not iterable"
        | some cur =>
          .returned (setAssoc book i
              { entry with emails := some (appendMissing cur (emails.getD [])),
                           update_time := now },
            "Emails " ++ pyListRepr (emails.getD []) ++ " added to person with ID " ++ i ++ ".")
  else if operation = "delete_emails" then
    if truthyS id = false then .raised "ID is required for deleting emails."
    else if truthyL emails = false then .raised "Emails are required for deleting emails."
    else
      let i := id.getD ""
      match lookupAssoc book i with
      | none => .raised ("Error: Person with ID " ++ i ++ " not found.")
      | some entry =>
        match entry.emails with
        | none => .raised "TypeError: argument of type \x27NoneType\x27 is not iterable"
        | some cur =>
          .returned (setAssoc book i
              { entry with emails := some (removePresent cur (emails.getD [])),
                           update_time := now },
            "Emails " ++ pyListRepr (emails.getD []) ++ " deleted from person with ID " ++ i ++ ".")
  else if operation = "add_groups" then
    if truthyS id = false then .raised "ID is required for adding groups."
    else if truthyL groups = false then .raised "Groups are required for adding groups."
    else
      let i := id.getD ""
      match lookupAssoc book i with
      | none => .raised ("Error: Person with ID " ++ i ++ " not found.")
      | some entry =>
        match entry.groups with
        | none => .raised "TypeError: argument of type \x27NoneType\x27 is not iterable"
        | some cur =>
          .returned (setAssoc book i
              { entry with groups := some (appendMissing cur (groups.getD [])),
                           update_time := now },
            "Groups " ++ pyListRepr (groups.getD []) ++ " added to person with ID " ++ i ++ ".")
  else if operation = "delete_groups" then
    if truthyS id = false then .raised "ID is required for deleting groups."
    else if truthyL groups = false then .raised "Groups are required for deleting groups."
    else
      let i := id.getD ""
      match lookupAssoc book i with
      | none => .raised ("Error: Person with ID " ++ i ++ " not found.")
      | some entry =>
        match entry.groups with
        | none => .raised "TypeError: argument of type \x27NoneType\x27 is not iterable"
        | some cur =>
          .returned (setAssoc book i
              { entry with groups := some (removePresent cur (groups.getD [])),
                           update_time := now },
            "Groups " ++ pyListRepr (groups.getD []) ++ " deleted from person with ID " ++ i ++ ".")
  else if operation = "edit_name" then
    if truthyS id = false then .raised "ID is required for editing name."
    else if truthyS name = false then .raised "Name is required for editing name."
    else
      let i := id.getD ""
      match lookupAssoc book i with
      | none => .raised ("Error: Person with ID " ++ i ++ " not found.")
      | some entry =>
        .returned (setAssoc book i
            { entry with name := name.getD "", update_time := now },
          "Name of person with ID " ++ i ++ " updated to " ++ name.getD "" ++ ".")
  else
    .returned (book, "Error: Invalid operation " ++ operation
      ++ ". Valid operations are \x27add_people\x27, \x27delete_people\x27, \x27add_emails\x27, "
      ++ "\x27delete_emails\x27, \x27add_groups\x27, \x27delete_groups\x27, \x27edit_name\x27.")

/-- `search_address_book` (lines 810-844).  JSON rendering of the matches
is not modelled: the result is the list of matching entries, in book
order.  The `assert len(infos) > 0` checks raise `AssertionError` on an
empty result.  A search by email or group iterates `x in v.get(...)` over
every entry, which raises `TypeError` as soon as some entry stores `null`
there. -/
def search_address_book_model (book : AddressBook)
    (name email group : Option String) : PyResult (List ABEntry) :=
  if name.isNone && email.isNone && group.isNone then
    if book.isEmpty then .raised "Error: Address book is empty."
    else .returned (book.map (fun p => p.2))
  else if name.isSome then
    let infos := (book.map (fun p => p.2)).filter (fun v => v.name == name.getD "")
    if infos.isEmpty then
      .raised ("Error: Person with name " ++ name.getD "" ++ " not found.")
    else .returned infos
  else if email.isSome then
    if (book.map (fun p => p.2)).any (fun v => v.emails.isNone) then
      .raised "TypeError: argument of type \x27NoneType\x27 is not iterable"
    else
      let infos := (book.map (fun p => p.2)).filter
        (fun v => (v.emails.getD []).contains (email.getD ""))
      if infos.isEmpty then
        .raised ("Error: Person with email " ++ email.getD "" ++ " not found.")
      else .returned infos
  else
    if (book.map (fun p => p.2)).any (fun v => v.groups.isNone) then
      .raised "TypeError: argument of type \x27NoneType\x27 is not iterable"
    else
      let infos := (book.map (fun p => p.2)).filter
        (fun v => (v.groups.getD []).contains (group.getD ""))
      if infos.isEmpty then
        .raised ("Error: No people found in group " ++ group.getD "" ++ ".")
      else .returned infos

/-! ### Sender parsing (`fetch_emails_for_folder_async`, api_server.py lines 1286-1311)

The parser works on the raw `From` string.  The two regexes are emulated
character by character with Python's backtracking priorities:

* `re.search(r"<([^>]+)>", s)` — the leftmost `<` followed by a nonempty
  run of non-`>` characters and then `>`;
* `re.match(r"^\"?([^\"<>]+?)\"?\s*<", s)` — an optional leading quote,
  then a lazily-growing group of characters outside `"<>`, then an
  optional quote, optional whitespace and `<`. -/

/-- `re.search(r"<([^>]+)>", s)`: group 1 of the leftmost match. -/
def angleSearch : List Char → Option (List Char)
  | [] => none
  | '<' :: rest =>
    let content := rest.takeWhile (fun c => c != '>')
    if content.length > 0 && content.length < rest.length then some content
    else angleSearch rest
  | _ :: rest => angleSearch rest

/-- The `\s*<` tail of the name regex: after greedily skipping
whitespace, the next character must be `<`. -/
def finishTail (l : List Char) : Bool :=
  match l.dropWhile isPySpace with
  | '<' :: _ => true
  | _ => false

/-- The `"?\s*<` tail: the optional closing quote is tried greedily
first, falling back to not consuming it. -/
def tryFinish (l : List Char) : Bool :=
  match l with
  | '"' :: r => finishTail r || finishTail l
  | _ => finishTail l

/-- The lazy group `([^"<>]+?)`: grow one character at a time, attempting
the `"?\s*<` tail after each character. -/
def nameGroupLoop : List Char → List Char → Option (List Char)
  | [], _ => none
  | c :: rest, acc =>
    if c = '"' || c = '<' || c = '>' then none
    else if tryFinish rest then some (acc ++ [c])
    else nameGroupLoop rest (acc ++ [c])

/-- `re.match(r"^\"?([^\"<>]+?)\"?\s*<", s)`: group 1, if the anchored
match succeeds.  The leading `"?` is greedy; when it does not consume the
quote the group would have to start with `"` and fails at once. -/
def reMatchName (l : List Char) : Option (List Char) :=
  match l with
  | '"' :: rest =>
    match nameGroupLoop rest [] with
    | some g => some g
    | none => nameGroupLoop l []
  | _ => nameGroupLoop l []

structure Sender where
  name : List Char
  email : List Char
deriving Repr, DecidableEq

/-- The sender-parsing block of `fetch_emails_for_folder_async` (lines
1286-1311): defaults `sender_email = 'unknown@example.com'`,
`sender_name = ''`; an angle-bracketed address wins, then a bare address
containing `@`, else the whole string is the display name — with the
placeholder address left in place. -/
def parseSender (from_field : List Char) : Sender :=
  if from_field.isEmpty then ⟨[], "unknown@example.com".toList⟩
  else
    match angleSearch from_field with
    | some addr =>
      let nm := match reMatchName from_field with
        | some g => stripChars g
        | none => []
      ⟨nm, addr⟩
    | none =>
      if from_field.contains '@' then ⟨[], stripChars from_field⟩
      else ⟨stripChars from_field, "unknown@example.com".toList⟩

/-! ### Folder priority (`get_folder_priority`, api_server.py lines 1476-1545) -/

/-- The fixed priority table (keys already lowercase, as matched against
`folder_name.lower()`). -/
def priority_folders : List (String × Nat) :=
  [("sent", 10), ("sent items", 10), ("sent mail", 10), ("[gmail]/sent", 10),
   ("drafts", 20), ("draft", 20), ("[gmail]/drafts", 20),
   ("junk", 30), ("spam", 30), ("bulk mail", 30), ("[gmail]/spam", 30),
   ("trash", 40), ("deleted", 40), ("deleted items", 40), ("deleted messages", 40),
   ("bin", 40), ("[gmail]/trash", 40),
   ("archive", 50), ("all mail", 50), ("[gmail]/all mail", 50),
   ("starred", 60), ("flagged", 60), ("[gmail]/starred", 60),
   ("important", 70), ("[gmail]/important", 70)]

def get_folder_priority (folder_name : String) : Nat :=
  let name_lower := lowerStr folder_name
  if name_lower = "inbox" then 0
  else
    match lookupAssoc priority_folders name_lower with
    | some p => p
    | none =>
      if name_lower.data.contains '[' && name_lower.data.contains ']' then 100
      else 200

/-- The possible priority values, in increasing order. -/
def priorityValues : List Nat := [0, 10, 20, 30, 40, 50, 60, 70, 100, 200]

/-- `sorted(folders, key=lambda f: get_folder_priority(f))`: Python's sort
is stable, and every key is one of the ten fixed `priorityValues`, so the
stable sort is exactly the concatenation of the priority buckets in
increasing key order, each bucket keeping the original server order. -/
def order_folders (folders : List String) : List String :=
  priorityValues.flatMap (fun p => folders.filter (fun f => get_folder_priority f == p))

/-! ### The IMAP gate (`_imap_lock`, api_server.py line 1174)

`_imap_lock` is the single process-wide `asyncio.Lock`.  The only places
that acquire it are the two `async with _imap_lock:` blocks in
`fetch_folders_async` (line 1207) and `fetch_emails_for_folder_async`
(line 1251).  Every IMAP command each code path issues is recorded as an
event: which protocol operation, whether the command runs inside an
`async with _imap_lock:` block (a lexical property of the source), and
whether it is issued on the shared module-level `email_tools.mailbox`
connection (as opposed to a freshly created private one). -/

inductive ImapOp where
  | listFolders
  | selectFolder (name : String)
  | fetch
  | deleteMsg
  | moveMsg
  | setFlag
deriving Repr, DecidableEq

structure ImapEvent where
  op : ImapOp
  gateHeld : Bool
  onSharedConn : Bool
deriving Repr, DecidableEq

/-- `fetch_folders_async` (lines 1197-1226): one `folder.list` on the
shared mailbox, inside `async with _imap_lock`. -/
def fetch_folders_async_events : List ImapEvent :=
  [⟨.listFolders, true, true⟩]

/-- `fetch_emails_for_folder_async` (lines 1229-1272): `folder.set` then
`fetch` on the shared mailbox, both inside `async with _imap_lock`. -/
def fetch_emails_for_folder_async_events (folder : String) : List ImapEvent :=
  [⟨.selectFolder folder, true, true⟩, ⟨.fetch, true, true⟩]

/-- `read_emails` (email_tools.py lines 236-279): `folder.list`,
`folder.set` and `fetch` on the shared module-level mailbox; the function
never touches `_imap_lock` (it does not even import it). -/
def read_emails_events (folder : String) : List ImapEvent :=
  [⟨.listFolders, false, true⟩, ⟨.selectFolder folder, false, true⟩, ⟨.fetch, false, true⟩]

/-- `delete_email` (line 434): `mailbox.delete` on the shared mailbox,
no lock. -/
def delete_email_events : List ImapEvent :=
  [⟨.deleteMsg, false, true⟩]

/-- `move_email` (lines 473, 501): `folder.list` and `mailbox.move` on the
shared mailbox, no lock. -/
def move_email_events : List ImapEvent :=
  [⟨.listFolders, false, true⟩, ⟨.moveMsg, false, true⟩]

/-- `flag_email` (line 578): `mailbox.flag.set` on the shared mailbox,
no lock. -/
def flag_email_events : List ImapEvent :=
  [⟨.setFlag, false, true⟩]

/-- `delete_email_endpoint` (api_server.py line 933): `mailbox.delete` on
the shared `email_tools_module.mailbox`, no lock. -/
def delete_email_endpoint_events : List ImapEvent :=
  [⟨.deleteMsg, false, true⟩]

/-- `flag_email_endpoint` (line 885) delegates to `flag_email.func`, so it
issues the same unlocked shared-connection command. -/
def flag_email_endpoint_events : List ImapEvent :=
  flag_email_events

/-- `move_email_endpoint` (lines 985-1031) opens a fresh private
`MailBoxClient` connection for the whole operation. -/
def move_email_endpoint_events : List ImapEvent :=
  [⟨.listFolders, false, false⟩, ⟨.moveMsg, false, false⟩]

/-- All IMAP commands reachable from the folder listing, the
select-and-fetch paths, the agent-facing tools and the REST endpoints. -/
def all_imap_events (folder : String) : List ImapEvent :=
  fetch_folders_async_events ++ fetch_emails_for_folder_async_events folder
    ++ read_emails_events folder ++ delete_email_events ++ move_email_events
    ++ flag_email_events ++ delete_email_endpoint_events
    ++ flag_email_endpoint_events ++ move_email_endpoint_events

/-- The gate-exclusivity property claimed by the spec: every command
issued to the shared connection runs with `_imap_lock` held. -/
def gate_exclusivity_holds : Prop :=
  ∀ folder : String, ∀ ev ∈ all_imap_events folder,
    ev.onSharedConn = true → ev.gateHeld = true

/-! ### Concrete emails used by the witnesses -/

def demoE1 : Email := ⟨"7", "Hello", "alice@x.com", "2024-01-01", []⟩

def demoE2 : Email := ⟨"9", "World", "bob@x.com", "2024-01-02", ["\\Seen"]⟩

/-! ### Claims -/

/-- C1: index stability under tombstoning.  A successful
`delete_email(email_index=k)` on a resolvable (non-tombstoned, in-range)
slot sets slot `k` to `None` in place: the cache keeps its length and
every other index still resolves to the same email as before. -/
theorem C1_index_stability (cache : Cache) (k : Nat) (e : Email) (err : String)
    (h : resolveIndex cache k = some e) :
    (delete_email true true err cache (some (k : Int)) none).cache = cache.set (k - 1) none ∧
    (delete_email true true err cache (some (k : Int)) none).cache.length = cache.length ∧
    ∀ j, j ≠ k →
      resolveIndex (delete_email true true err cache (some (k : Int)) none).cache j =
        resolveIndex cache j := by
  have hred := delete_email_by_index_eq true err h
  simp only [if_true] at hred
  rw [hred]
  refine ⟨rfl, by simp, ?_⟩
  intro j hj
  exact resolveIndex_set_none_ne cache k j (resolveIndex_pos h) hj

theorem C1_witness :
    (delete_email true true "boom" [some demoE1, some demoE2]
        (some ((1 : Nat) : Int)) none).cache = ([some demoE1, some demoE2] : Cache).set 0 none ∧
    (delete_email true true "boom" [some demoE1, some demoE2]
        (some ((1 : Nat) : Int)) none).cache.length = ([some demoE1, some demoE2] : Cache).length ∧
    ∀ j, j ≠ 1 →
      resolveIndex (delete_email true true "boom" [some demoE1, some demoE2]
          (some ((1 : Nat) : Int)) none).cache j =
        resolveIndex [some demoE1, some demoE2] j :=
  C1_index_stability [some demoE1, some demoE2] 1 demoE1 "boom" (by decide)

/-- C2 (counterexample): the claimed gate exclusivity is false — the
agent-facing `delete_email` tool issues `mailbox.delete` on the shared
connection with `_imap_lock` unheld. -/
theorem C2_counterexample : ¬ gate_exclusivity_holds := by
  intro h
  have := h "INBOX" ⟨.deleteMsg, false, true⟩ (by decide) rfl
  simp at this

/-- C2 (amended): only the two async streaming paths
(`fetch_folders_async`, `fetch_emails_for_folder_async`) hold the gate for
their shared-connection commands; `read_emails`, `delete_email`,
`move_email`, `flag_email` and the delete/flag REST endpoints issue
shared-connection commands with the gate unheld, and `move_email_endpoint`
uses a fresh private connection instead. -/
theorem C2_gate_only_on_streaming_paths :
    (∀ folder, (fetch_folders_async_events
        ++ fetch_emails_for_folder_async_events folder).all
      (fun ev => ev.gateHeld && ev.onSharedConn) = true) ∧
    (∀ folder, (read_emails_events folder ++ delete_email_events
        ++ move_email_events ++ flag_email_events
        ++ delete_email_endpoint_events ++ flag_email_endpoint_events).all
      (fun ev => !ev.gateHeld && ev.onSharedConn) = true) ∧
    move_email_endpoint_events.all (fun ev => !ev.onSharedConn) = true :=
  ⟨fun _ => rfl, fun _ => rfl, rfl⟩

/-- C3: cache replacement is total.  Whenever a `read_emails` call
returns, the session's cache is exactly the ordered fetch result; in
particular after two calls for the same session the cache equals exactly
the second result set, with no residue of the first. -/
theorem C3_cache_replace_total
    (c1 : Bool) (f1 : List String) (fn1 sd1 ed1 : Option String) (es1 : List Email)
    (c2 : Bool) (f2 : List String) (fn2 sd2 ed2 : Option String) (es2 : List Email)
    (st st1 st2 : AppState) (sess : String)
    (h1 : read_emails_model c1 f1 fn1 sd1 ed1 es1 st sess = .returned st1)
    (h2 : read_emails_model c2 f2 fn2 sd2 ed2 es2 st1 sess = .returned st2) :
    lookupAssoc st1.caches sess = some (es1.map some) ∧
    lookupAssoc st2.caches sess = some (es2.map some) :=
  ⟨read_emails_returns_replaced h1, read_emails_returns_replaced h2⟩

theorem C3_witness :
    lookupAssoc (read_emails_cache_update ⟨[], []⟩ "s" [demoE1]).caches "s"
      = some [some demoE1] ∧
    lookupAssoc (read_emails_cache_update
        (read_emails_cache_update ⟨[], []⟩ "s" [demoE1]) "s" [demoE2]).caches "s"
      = some [some demoE2] :=
  C3_cache_replace_total true ["INBOX"] (some "INBOX") none none [demoE1]
    true ["INBOX"] (some "INBOX") none none [demoE2]
    ⟨[], []⟩ _ _ "s" rfl rfl

/-- C4 (code bug): uid/index equivalence fails in the code.  The uid scan
converts `email_uid` to an int and compares it to the string
`MailMessage.uid` — the code's own comment claims the uid is an integer —
so the scan never matches: `delete_email(email_uid=u)` reports the email
as not found even when the slot holding uid `u` is right there in the
cache, instead of targeting that slot as `delete_email(email_index=k)`
does. -/
theorem C4_uid_resolution_never_matches :
    (∀ (cache : Cache) (uid : Int), resolveUid cache uid = none) ∧
    delete_email true true "boom" [some demoE1, some demoE2] none (some "9")
      = ⟨[some demoE1, some demoE2],
          "Error: Email with UID 9 not found. The email may have already been deleted."⟩ ∧
    resolveIndex [some demoE1, some demoE2] 2 = some demoE2 ∧
    demoE2.uid = "9" ∧
    (delete_email true true "boom" [some demoE1, some demoE2]
        (some ((2 : Nat) : Int)) none).cache = [some demoE1, none] :=
  ⟨resolveUid_eq_none, rfl, rfl, rfl, rfl⟩

/-- C5 (counterexample): tool functions do raise uncaught exceptions —
`read_emails` re-raises `ValueError` on a malformed `start_date`,
`modify_address_book` raises `AssertionError` when `name` is missing for
`add_people`, and `search_address_book` raises `AssertionError` on an
empty book. -/
theorem C5_counterexample :
    read_emails_model true ["INBOX"] none (some "not-a-date") none [] ⟨[], []⟩ "s"
      = .raised "Invalid start_date format: not-a-date. Expected format: YYYY-MM-DD" ∧
    modify_address_book_model [] "add_people" none none none none "t"
      = .raised "Name is required for adding a person." ∧
    search_address_book_model [] none none none
      = .raised "Error: Address book is empty." := by
  refine ⟨rfl, rfl, rfl⟩

/-- C5 (amended): `delete_email` (and the other cache tools, whose bodies
sit inside a catch-all `try`/`except`) return a descriptive string on
every failure path, but `read_emails` raises: `MailboxFolderSelectError`
when the requested folder does not exist (even with its `[Gmail]/` alias),
and — once the folder selection succeeded — `ValueError` whenever
`start_date` fails date parsing; `modify_address_book` raises
`AssertionError` whenever `add_people` is called without a name. -/
theorem C5_error_propagation :
    (∀ (allFolders : List String) (fn sd : String) (ed : Option String)
        (fetched : List Email) (st : AppState) (sess : String),
      containsStr allFolders fn = true →
      parseDate sd = none →
      read_emails_model true allFolders (some fn) (some sd) ed fetched st sess
        = .raised (date_error "start_date" sd)) ∧
    (∀ (allFolders : List String) (fn : String) (sd ed : Option String)
        (fetched : List Email) (st : AppState) (sess : String),
      containsStr allFolders fn = false →
      containsStr allFolders ("[Gmail]/" ++ fn) = false →
      read_emails_model true allFolders (some fn) sd ed fetched st sess
        = .raised ("MailboxFolderSelectError: folder \x27" ++ fn ++ "\x27 does not exist")) ∧
    (∀ (book : AddressBook) (id : Option String) (emails groups : Option (List String))
        (now : String),
      modify_address_book_model book "add_people" id none emails groups now
        = .raised "Name is required for adding a person.") ∧
    (∀ (cache : Cache) (k : Nat) (e : Email) (err : String),
      resolveIndex cache k = some e →
      (delete_email true false err cache (some (k : Int)) none).msg
        = "Failed to delete email #" ++ toString (k : Int) ++ ": " ++ err ∧
      (delete_email true false err cache (some (k : Int)) none).cache = cache) := by
  refine ⟨?_, ?_, ?_, ?_⟩
  · intro allFolders fn sd ed fetched st sess hfn h
    simp [read_emails_model, resolve_folder_name, hfn, h]
  · intro allFolders fn sd ed fetched st sess hfn halias
    simp [read_emails_model, resolve_folder_name, hfn, halias]
  · intro book id emails groups now
    rfl
  · intro cache k e err h
    have hred := delete_email_by_index_eq false err h
    simp only [Bool.false_eq_true, if_false] at hred
    rw [hred]
    exact ⟨rfl, rfl⟩

theorem C5_witness :
    read_emails_model true ["INBOX"] (some "INBOX") (some "99-99") none [demoE1] ⟨[], []⟩ "s"
      = .raised (date_error "start_date" "99-99") ∧
    read_emails_model true ["INBOX"] (some "Bogus") (some "99-99") none [demoE1] ⟨[], []⟩ "s"
      = .raised ("MailboxFolderSelectError: folder \x27" ++ "Bogus" ++ "\x27 does not exist") ∧
    modify_address_book_model [] "add_people" (some "1") none none none "t"
      = .raised "Name is required for adding a person." ∧
    (delete_email true false "boom" [some demoE1] (some ((1 : Nat) : Int)) none).msg
      = "Failed to delete email #" ++ toString ((1 : Nat) : Int) ++ ": " ++ "boom" ∧
    (delete_email true false "boom" [some demoE1] (some ((1 : Nat) : Int)) none).cache
      = [some demoE1] :=
  ⟨C5_error_propagation.1 ["INBOX"] "INBOX" "99-99" none [demoE1] ⟨[], []⟩ "s"
      (by decide) (by decide),
   C5_error_propagation.2.1 ["INBOX"] "Bogus" (some "99-99") none [demoE1] ⟨[], []⟩ "s"
      (by decide) (by decide),
   C5_error_propagation.2.2.1 [] (some "1") none none "t",
   C5_error_propagation.2.2.2 [some demoE1] 1 demoE1 "boom" (by decide)⟩

/-- C6 (counterexample): a `delete_email` call supplying BOTH identifiers
is not rejected — `email_index` silently takes precedence.  Here index 1
names uid 7 and the uid argument names uid 9; the call succeeds and
tombstones slot 1 (the entry with uid 7), ignoring the uid argument. -/
theorem C6_counterexample :
    delete_email true true "boom" [some demoE1, some demoE2] (some 1) (some "9")
      = ⟨[none, some demoE2], "Email #1 deleted successfully!"⟩ := by
  rfl

/-- C6 (amended): a call supplying neither identifier performs no deletion
and returns an error string, and a call supplying both is treated exactly
as if only `email_index` had been supplied (`email_uid` is ignored). -/
theorem C6_identifier_contract :
    (∀ (serverOk : Bool) (err : String) (cache : Cache),
      delete_email true serverOk err cache none none
        = ⟨cache, "Error: Either email_index or email_uid must be provided."⟩) ∧
    (∀ (connected serverOk : Bool) (err : String) (cache : Cache) (k : Int) (u : String),
      delete_email connected serverOk err cache (some k) (some u)
        = delete_email connected serverOk err cache (some k) none) := by
  exact ⟨fun _ _ _ => rfl, fun _ _ _ _ _ _ => rfl⟩

/-- C7 (counterexample): right after `read_emails` populates a session
with one email, the on-disk snapshot for that session is the empty list —
not the serialized metadata of the fetched entry. -/
theorem C7_counterexample :
    lookupAssoc (read_emails_cache_update ⟨[], []⟩ "s" [demoE1]).disk "s" = some [] ∧
    serialize_email_cache ([demoE1].map some) ≠ [] := by
  exact ⟨rfl, by decide⟩

/-- C7 (amended): `set_emails_cache` does persist the serialized metadata
of the list it is given, but `read_emails` calls it with the empty list
and then appends the fetched emails to the in-memory list only; after
`read_emails` returns, the durable snapshot for that session is the empty
list, and the fetched metadata reaches disk only when a later cache change
(here: for another session) triggers another full save. -/
theorem C7_snapshot_lags_cache :
    (∀ (st : AppState) (sess : String) (emails : Cache),
      lookupAssoc (set_emails_cache st sess emails).disk sess
        = some (serialize_email_cache emails)) ∧
    (∀ (st : AppState) (sess : String) (fetched : List Email),
      lookupAssoc (read_emails_cache_update st sess fetched).caches sess
        = some (fetched.map some) ∧
      lookupAssoc (read_emails_cache_update st sess fetched).disk sess = some []) ∧
    (∀ (st : AppState) (sess other : String) (fetched : List Email) (v : Cache),
      other ≠ sess →
      lookupAssoc (set_emails_cache (read_emails_cache_update st sess fetched) other v).disk
          sess = some (serialize_email_cache (fetched.map some))) := by
  refine ⟨disk_after_set_emails_cache, ?_, ?_⟩
  · intro st sess fetched
    exact ⟨memory_after_read_emails st sess fetched,
      by simpa using disk_after_read_emails st sess fetched⟩
  · intro st sess other fetched v h
    exact disk_after_later_save st sess other fetched v h

theorem C7_witness :
    lookupAssoc (set_emails_cache (read_emails_cache_update ⟨[], []⟩ "s" [demoE1])
        "other" []).disk "s" = some (serialize_email_cache ([demoE1].map some)) :=
  C7_snapshot_lags_cache.2.2 ⟨[], []⟩ "s" "other" [demoE1] [] (by decide)

/-- C8 (counterexample): for the bracket-free, `@`-free string `"Carol"`
the parser leaves the placeholder address `unknown@example.com` in place —
the claimed empty address is wrong. -/
theorem C8_counterexample :
    parseSender "Carol".toList = ⟨"Carol".toList, "unknown@example.com".toList⟩ ∧
    (parseSender "Carol".toList).email ≠ [] := by
  exact ⟨by decide, by decide⟩

/-- C8 (amended): an angle-bracketed address yields the bracketed text as
address with the quoted/trimmed preceding text as name; a bracket-free
string containing `@` is the (stripped) address with empty name; otherwise
the (stripped) whole string is the name and the address is the placeholder
`unknown@example.com` (not the empty string). -/
theorem C8_sender_parsing :
    parseSender "Alice <alice@x.com>".toList = ⟨"Alice".toList, "alice@x.com".toList⟩ ∧
    parseSender "bob@x.com".toList = ⟨[], "bob@x.com".toList⟩ ∧
    parseSender "Carol".toList = ⟨"Carol".toList, "unknown@example.com".toList⟩ ∧
    (∀ l, angleSearch l = none → l.contains '@' = true →
      parseSender l = ⟨[], stripChars l⟩) ∧
    (∀ l, angleSearch l = none → l.contains '@' = false →
      parseSender l = ⟨stripChars l, "unknown@example.com".toList⟩) := by
  refine ⟨by decide, by decide, by decide, ?_, ?_⟩
  · intro l h1 h2
    cases l with
    | nil => simp at h2
    | cons c rest =>
      unfold parseSender
      rw [h1, h2]
      rfl
  · intro l h1 h2
    cases l with
    | nil => rfl
    | cons c rest =>
      unfold parseSender
      rw [h1, h2]
      rfl

theorem C8_witness :
    parseSender "x@y".toList = ⟨[], stripChars "x@y".toList⟩ ∧
    parseSender "Zed".toList = ⟨stripChars "Zed".toList, "unknown@example.com".toList⟩ :=
  ⟨C8_sender_parsing.2.2.2.1 "x@y".toList (by decide) (by decide),
   C8_sender_parsing.2.2.2.2 "Zed".toList (by decide) (by decide)⟩

/-- C9: folder priority ordering for UI streaming — the fixed priority
table (first-matching rule wins: INBOX, then the named-folder table, then
bracket-namespaced folders, then everything else), with ties keeping the
original server order; the five-folder example streams in the claimed
order. -/
theorem C9_folder_priority_order :
    order_folders ["INBOX", "Sent", "Custom", "[Gmail]/All Mail", "Trash"]
      = ["INBOX", "Sent", "Trash", "[Gmail]/All Mail", "Custom"] ∧
    get_folder_priority "INBOX" = 0 ∧
    get_folder_priority "Sent" = 10 ∧
    get_folder_priority "Drafts" = 20 ∧
    get_folder_priority "Junk" = 30 ∧
    get_folder_priority "Trash" = 40 ∧
    get_folder_priority "Archive" = 50 ∧
    get_folder_priority "Starred" = 60 ∧
    get_folder_priority "Important" = 70 ∧
    get_folder_priority "[Gmail]" = 100 ∧
    get_folder_priority "[Gmail]/All Mail" = 50 ∧
    get_folder_priority "Custom" = 200 ∧
    order_folders ["CustomB", "CustomA"] = ["CustomB", "CustomA"] := by
  decide

/-- C10: cache atomicity on server failure — when the server-side
delete/move command raises, the tool returns the failure string and the
cache (hence the slot, hence its resolvability at the original index) is
left unchanged. -/
theorem C10_atomic_tombstone :
    (∀ (cache : Cache) (k : Nat) (e : Email) (err : String),
      resolveIndex cache k = some e →
      delete_email true false err cache (some (k : Int)) none
        = ⟨cache, "Failed to delete email #" ++ toString (k : Int) ++ ": " ++ err⟩) ∧
    (∀ (folders : List String) (dest : String) (cache : Cache) (k : Nat) (e : Email)
        (err : String),
      containsStr folders dest = true → dest.data.isEmpty = false →
      resolveIndex cache k = some e →
      move_email true false err folders cache (some (k : Int)) none (some dest)
        = ⟨cache, "Failed to move email #" ++ toString (k : Int) ++ ": " ++ err⟩) := by
  constructor
  · intro cache k e err h
    have hred := delete_email_by_index_eq false err h
    simpa using hred
  · intro folders dest cache k e err hdest hne h
    have hred := move_email_by_index_eq false err hdest hne h
    simpa using hred

theorem C10_witness :
    delete_email true false "boom" [some demoE1] (some ((1 : Nat) : Int)) none
      = ⟨[some demoE1], "Failed to delete email #" ++ toString ((1 : Nat) : Int)
          ++ ": " ++ "boom"⟩ ∧
    move_email true false "boom" ["Archive"] [some demoE1]
        (some ((1 : Nat) : Int)) none (some "Archive")
      = ⟨[some demoE1], "Failed to move email #" ++ toString ((1 : Nat) : Int)
          ++ ": " ++ "boom"⟩ :=
  ⟨C10_atomic_tombstone.1 [some demoE1] 1 demoE1 "boom" (by decide),
   C10_atomic_tombstone.2 ["Archive"] "Archive" [some demoE1] 1 demoE1 "boom"
     (by decide) (by decide) (by decide)⟩

end EmailAgent
